import Mathlib

/-!
Shallow embedding of the FinPro Robo-Advisor recommendation engine
(`main.py`): the asset catalog, the SVD scoring model adapter, the
cold-start and warm-start rankers, the pydantic request contract and the
`POST /recommend` handler, together with proofs of the specified
properties.

Python conventions embedded here:
* a pandas `DataFrame` of catalog rows is a `List Asset`;
* Python sequence slicing `xs[:k]` and pandas `head(k)` (which, for a
  negative `k`, drop the last `|k|` elements) are `pyTake`;
* Python substring containment `sub in s` is `pyIn`;
* pandas `Series.unique()` (first occurrences, in order) is `pdUnique`;
* `list.sort(key=lambda x: x[1], reverse=True)` is a stable sort (the
  Python documentation guarantees stability, with `reverse=True` still
  preserving the original order of equal keys); it is embedded as the
  stable `List.insertionSort` with the descending-by-score relation
  `descBy` — any two stable sorts under the same comparison agree, so
  this is extensionally the behaviour of Python's sort;
* affinity estimates (Python floats produced by `MODEL_SVD.predict`) are
  embedded as rationals, which carry the ordering the ranker uses;
* the module-level globals `MODEL_SVD` (possibly `None`) and `df_assets`
  are explicit parameters of every function that reads them.
-/

namespace FinPro

/-- One row of `asset_information.csv`: the identifier column `ISIN` and the
category column `assetCategory`; display-only columns are irrelevant to
ranking and omitted. -/
structure Asset where
  ISIN : String
  assetCategory : String
deriving DecidableEq, Repr

/-- The loaded SVD model: `knownUser u` is true exactly when
`trainset.to_inner_uid(u)` succeeds (does not raise `ValueError`), and
`predict u a` is the affinity estimate `MODEL_SVD.predict(u, a).est`. -/
structure SVDModel where
  knownUser : String → Bool
  predict : String → String → Rat

/-- Python `xs[:k]` / pandas `head(k)` for a Python `int` `k`: a
nonnegative `k` keeps the first `k` elements; a negative `k` keeps all but
the last `|k|` elements. -/
def pyTake {α : Type} (k : Int) (xs : List α) : List α :=
  xs.take (if 0 ≤ k then k.toNat else xs.length - k.natAbs)

/-- Python substring containment: `sub in s`. -/
def pyIn (sub s : String) : Bool :=
  decide (List.IsInfix sub.data s.data)

/-- pandas `Series.unique()`: the first occurrence of each value, in
order of first appearance; `seen` accumulates values already emitted. -/
def pdUniqueAux {α : Type} [DecidableEq α] : List α → List α → List α
  | [], _ => []
  | x :: xs, seen =>
    if x ∈ seen then pdUniqueAux xs seen else x :: pdUniqueAux xs (x :: seen)

/-- pandas `Series.unique()` over a list. -/
def pdUnique {α : Type} [DecidableEq α] (l : List α) : List α :=
  pdUniqueAux l []

/-- The global `ALL_ASSET_IDS = df_assets['ISIN'].unique()`. -/
def ALL_ASSET_IDS (df_assets : List Asset) : List String :=
  pdUnique (df_assets.map Asset.ISIN)

/-- The eligible-category table computed at the top of
`get_cold_start_recs`: Python `'Conservative' in risk_profile` and
`'Aggressive' in risk_profile` are substring tests. -/
def target_cats (risk_profile : String) : List String :=
  if pyIn ("Conservative") risk_profile then [("Bond")]
  else if pyIn ("Aggressive") risk_profile then [("Stock")]
  else [("Stock"), ("MTF")]

/-- `get_cold_start_recs(risk_profile, top_k)`: filter the catalog rows
whose `assetCategory` is in the eligible set, `head(top_k)`, project the
`ISIN` column. -/
def get_cold_start_recs (df_assets : List Asset) (risk_profile : String)
    (top_k : Int) : List String :=
  let candidates :=
    df_assets.filter (fun a => (target_cats risk_profile).contains a.assetCategory)
  (pyTake top_k candidates).map Asset.ISIN

/-- The comparison realising `sort(key=lambda x: x[1], reverse=True)`:
`x` may precede `y` exactly when `x`'s score is at least `y`'s. -/
def descBy (x y : String × Rat) : Prop :=
  y.2 ≤ x.2

instance : DecidableRel descBy :=
  fun x y => inferInstanceAs (Decidable (y.2 ≤ x.2))

instance : IsTotal (String × Rat) descBy :=
  ⟨fun x y => le_total y.2 x.2⟩

instance : IsTrans (String × Rat) descBy :=
  ⟨fun _ _ _ h1 h2 => le_trans h2 h1⟩

/-- `get_warm_start_recs(user_id, top_k)`: score every id of
`ALL_ASSET_IDS`, sort descending by score (Python's sort is stable), take
the first `top_k` pairs, project the id. -/
def get_warm_start_recs (model : SVDModel) (df_assets : List Asset)
    (user_id : String) (top_k : Int) : List String :=
  let predictions :=
    (ALL_ASSET_IDS df_assets).map (fun asset_id => (asset_id, model.predict user_id asset_id))
  let sorted := predictions.insertionSort descBy
  (pyTake top_k sorted).map Prod.fst

/-- A parsed `RecommendationRequest`: `user_id : str`,
`risk_profile : Optional[str] = "Balanced"`, `top_k : int = 5`. -/
structure RecommendationRequest where
  user_id : String
  risk_profile : String
  top_k : Int
deriving DecidableEq, Repr

/-- A raw request body before pydantic validation; `none` marks an
omitted field. -/
structure RawRequest where
  user_id : Option String
  risk_profile : Option String
  top_k : Option Int
deriving DecidableEq, Repr

/-- The response model: echoed `user_id`, provenance `source`,
`recommendations`. -/
structure RecommendationResponse where
  user_id : String
  source : String
  recommendations : List String
deriving DecidableEq, Repr

/-- pydantic validation of `RecommendationRequest`: `user_id` is required
(any `str`, with no emptiness constraint); `risk_profile` defaults to
`"Balanced"`; `top_k` defaults to `5` and carries no range constraint. -/
def parseRequest (r : RawRequest) : Except String RecommendationRequest :=
  match r.user_id with
  | none => Except.error ("field required: user_id")
  | some u => Except.ok ⟨u, r.risk_profile.getD ("Balanced"), r.top_k.getD 5⟩

/-- The warm/cold classification of the endpoint: `MODEL_SVD` truthy and
`trainset.to_inner_uid(user_id)` not raising `ValueError`; it fails
closed when the model is absent. -/
def isKnownUser (model : Option SVDModel) (user_id : String) : Bool :=
  match model with
  | some m => m.knownUser user_id
  | none => false

/-- The body of the `POST /recommend` handler, after validation. -/
def recommend (model : Option SVDModel) (df_assets : List Asset)
    (request : RecommendationRequest) : RecommendationResponse :=
  match model with
  | some m =>
    if m.knownUser request.user_id then
      { user_id := request.user_id
        source := "AI Model (SVD)"
        recommendations := get_warm_start_recs m df_assets request.user_id request.top_k }
    else
      { user_id := request.user_id
        source := "Rule-Based (" ++ request.risk_profile ++ ")"
        recommendations := get_cold_start_recs df_assets request.risk_profile request.top_k }
  | none =>
      { user_id := request.user_id
        source := "Rule-Based (" ++ request.risk_profile ++ ")"
        recommendations := get_cold_start_recs df_assets request.risk_profile request.top_k }

/-- The whole per-request pipeline: pydantic validation, then the
handler; a validation failure is surfaced and nothing is processed. -/
def handleRequest (model : Option SVDModel) (df_assets : List Asset)
    (r : RawRequest) : Except String RecommendationResponse :=
  (parseRequest r).map (recommend model df_assets)

/-- `s` starts with `p`: some suffix `t` completes it. -/
def strStartsWith (s p : String) : Prop :=
  ∃ t, s = p ++ t

/-- A small concrete catalog used to instantiate the theorems. -/
def demoAssets : List Asset :=
  [⟨"A1", "Bond"⟩, ⟨"A2", "Stock"⟩, ⟨"A3", "Bond"⟩, ⟨"A4", "MTF"⟩]

/-- A small concrete model: the single known user `u1`, with a tie
between the scores of `A1` and `A3` and between those of `A2` and `A4`. -/
def demoModel : SVDModel where
  knownUser := fun u => u == "u1"
  predict := fun _ a =>
    if a == "A1" then 2 else if a == "A3" then 2 else 1

/-! ### Helper lemmas -/

theorem pyTake_of_nonneg {α : Type} {k : Int} (hk : 0 ≤ k) (xs : List α) :
    pyTake k xs = xs.take k.toNat := by
  simp [pyTake, hk]

theorem pyTake_sublist {α : Type} (k : Int) (xs : List α) :
    (pyTake k xs).Sublist xs :=
  List.take_sublist _ _

theorem length_pyTake_le {α : Type} {k : Int} (hk : 0 ≤ k) (xs : List α) :
    ((pyTake k xs).length : Int) ≤ k := by
  rw [pyTake_of_nonneg hk]
  have h1 : (xs.take k.toNat).length ≤ k.toNat := by
    simp
  omega

theorem length_cold_le {df_assets : List Asset} {risk_profile : String} {k : Int}
    (hk : 0 ≤ k) :
    ((get_cold_start_recs df_assets risk_profile k).length : Int) ≤ k := by
  unfold get_cold_start_recs
  rw [List.length_map]
  exact length_pyTake_le hk _

theorem length_warm_le {m : SVDModel} {df_assets : List Asset} {u : String} {k : Int}
    (hk : 0 ≤ k) :
    ((get_warm_start_recs m df_assets u k).length : Int) ≤ k := by
  unfold get_warm_start_recs
  rw [List.length_map]
  exact length_pyTake_le hk _

theorem not_mem_seen_of_mem_pdUniqueAux {α : Type} [DecidableEq α] {x : α} :
    ∀ {l seen : List α}, x ∈ pdUniqueAux l seen → x ∉ seen := by
  intro l
  induction l with
  | nil => intro seen h; simp [pdUniqueAux] at h
  | cons z l ih =>
    intro seen h
    rw [pdUniqueAux] at h
    by_cases hz : z ∈ seen
    · rw [if_pos hz] at h
      exact ih h
    · rw [if_neg hz] at h
      rcases List.mem_cons.mp h with rfl | h'
      · exact hz
      · intro hx
        exact ih h' (List.mem_cons_of_mem z hx)

theorem pdUniqueAux_nodup {α : Type} [DecidableEq α] :
    ∀ (l seen : List α), (pdUniqueAux l seen).Nodup := by
  intro l
  induction l with
  | nil => intro seen; simp [pdUniqueAux]
  | cons z l ih =>
    intro seen
    rw [pdUniqueAux]
    by_cases hz : z ∈ seen
    · rw [if_pos hz]; exact ih seen
    · rw [if_neg hz]
      refine List.nodup_cons.mpr ⟨?_, ih (z :: seen)⟩
      intro hmem
      exact not_mem_seen_of_mem_pdUniqueAux hmem (List.mem_cons_self z seen)

theorem pdUnique_nodup {α : Type} [DecidableEq α] (l : List α) :
    (pdUnique l).Nodup :=
  pdUniqueAux_nodup l []

theorem ALL_ASSET_IDS_nodup (df_assets : List Asset) :
    (ALL_ASSET_IDS df_assets).Nodup :=
  pdUnique_nodup _

/-- The provenance label built in the cold branch starts with
`"Rule-Based"`. -/
theorem ruleBased_startsWith (rp : String) :
    strStartsWith ("Rule-Based (" ++ rp ++ ")") ("Rule-Based") := by
  refine ⟨" (" ++ rp ++ ")", ?_⟩
  have h : ("Rule-Based (" : String) = "Rule-Based" ++ " (" := by decide
  rw [h, String.append_assoc, String.append_assoc, String.append_assoc]

/-- Every pair in the scored list has, as second component, the model's
affinity for its first component; the property survives the sort. -/
theorem snd_eq_predict_of_mem_sorted {m : SVDModel} {df_assets : List Asset}
    {u : String} {x : String × Rat}
    (hx : x ∈ ((ALL_ASSET_IDS df_assets).map
        (fun asset_id => (asset_id, m.predict u asset_id))).insertionSort descBy) :
    x.2 = m.predict u x.1 := by
  have hx' := (List.mem_insertionSort descBy).mp hx
  rcases List.mem_map.mp hx' with ⟨a, _, rfl⟩
  rfl

/-- If a pair list `[x, y]` is a sublist of a duplicate-free list, it
remains a sublist of any prefix of that list containing `y`. -/
theorem pair_sublist_take {α : Type} {x y : α} :
    ∀ {l : List α} {n : Nat}, [x, y].Sublist l → l.Nodup → y ∈ l.take n →
      [x, y].Sublist (l.take n) := by
  intro l
  induction l with
  | nil => intro n h _ _; simp at h
  | cons z l ih =>
    intro n h hnd hy
    cases n with
    | zero => simp at hy
    | succ n =>
      rw [List.take_succ_cons] at hy ⊢
      cases h with
      | cons _ h' =>
        have hyl : y ∈ l := h'.subset (by simp)
        have hzne : y ≠ z := by
          rintro rfl
          exact (List.nodup_cons.mp hnd).1 hyl
        have hy' : y ∈ l.take n := by
          rcases List.mem_cons.mp hy with h1 | h2
          · exact absurd h1 hzne
          · exact h2
        exact (ih h' (List.nodup_cons.mp hnd).2 hy').cons z
      | cons₂ _ h' =>
        have hyl : y ∈ l := h'.subset (by simp)
        have hyne : y ≠ x := by
          rintro rfl
          exact (List.nodup_cons.mp hnd).1 hyl
        have hy' : y ∈ l.take n := by
          rcases List.mem_cons.mp hy with h1 | h2
          · exact absurd h1 hyne
          · exact h2
        exact (List.singleton_sublist.mpr hy').cons₂ x

/-- At `top_k = 0` both rankers contribute an empty recommendation
list. -/
theorem recommendations_at_zero (model : Option SVDModel) (df_assets : List Asset)
    (u rp : String) :
    (recommend model df_assets ⟨u, rp, 0⟩).recommendations = [] := by
  cases model with
  | none => simp [recommend, get_cold_start_recs, pyTake]
  | some m =>
    by_cases h : m.knownUser u
    · simp [recommend, h, get_warm_start_recs, pyTake]
    · simp [recommend, h, get_cold_start_recs, pyTake]

/-- The cold-start output never repeats an identifier when the catalog
identifiers are unique: it is a sublist of the catalog's `ISIN` column. -/
theorem cold_nodup {df_assets : List Asset}
    (hdf : (df_assets.map Asset.ISIN).Nodup) (rp : String) (k : Int) :
    (get_cold_start_recs df_assets rp k).Nodup := by
  unfold get_cold_start_recs
  have h1 : (pyTake k (df_assets.filter
      (fun a => (target_cats rp).contains a.assetCategory))).Sublist df_assets :=
    (pyTake_sublist _ _).trans (List.filter_sublist _)
  exact List.Nodup.sublist (h1.map Asset.ISIN) hdf

/-- Projecting the identifier back out of the scored pairs recovers the
scored identifier list. -/
theorem map_fst_pairs (f : String → Rat) (l : List String) :
    (l.map (fun a => (a, f a))).map Prod.fst = l := by
  induction l with
  | nil => rfl
  | cons x xs ih => simp [ih]

/-- The warm-start output never repeats an identifier: the scored
identifiers are deduplicated by `unique()` before ranking. -/
theorem warm_nodup (m : SVDModel) (df_assets : List Asset) (u : String) (k : Int) :
    (get_warm_start_recs m df_assets u k).Nodup := by
  set preds := (ALL_ASSET_IDS df_assets).map
    (fun asset_id => (asset_id, m.predict u asset_id)) with hpreds
  show ((pyTake k (preds.insertionSort descBy)).map Prod.fst).Nodup
  have hperm : List.Perm ((preds.insertionSort descBy).map Prod.fst) (ALL_ASSET_IDS df_assets) := by
    have h := (List.perm_insertionSort descBy preds).map Prod.fst
    have h2 : preds.map Prod.fst = ALL_ASSET_IDS df_assets := by
      rw [hpreds]
      exact map_fst_pairs _ _
    rwa [h2] at h
  have hnodup : ((preds.insertionSort descBy).map Prod.fst).Nodup :=
    hperm.nodup_iff.mpr (ALL_ASSET_IDS_nodup df_assets)
  exact List.Nodup.sublist ((pyTake_sublist _ _).map Prod.fst) hnodup

/-! ### The claims -/

/-- Claim C1 (confirmed): for every request, if the scoring model is
loaded and `isKnownUser(user_id)` holds, the provenance label starts with
"AI Model" and the warm-start ranker produces the recommendations; if
the model is absent or the user is unknown, the label starts with
"Rule-Based" and the cold-start ranker produces them; in particular an
absent model forces Rule-Based provenance for every user. -/
theorem C1_dispatch (model : Option SVDModel) (df_assets : List Asset)
    (request : RecommendationRequest) :
    (∀ m : SVDModel, model = some m → m.knownUser request.user_id = true →
      strStartsWith (recommend model df_assets request).source ("AI Model") ∧
      (recommend model df_assets request).recommendations =
        get_warm_start_recs m df_assets request.user_id request.top_k) ∧
    (isKnownUser model request.user_id = false →
      strStartsWith (recommend model df_assets request).source ("Rule-Based") ∧
      (recommend model df_assets request).recommendations =
        get_cold_start_recs df_assets request.risk_profile request.top_k) ∧
    (model = none →
      strStartsWith (recommend model df_assets request).source ("Rule-Based")) := by
  refine ⟨?_, ?_, ?_⟩
  · rintro m rfl hku
    simp only [recommend, hku, if_true]
    exact ⟨⟨" (SVD)", by decide⟩, trivial⟩
  · intro hku
    cases model with
    | none => exact ⟨ruleBased_startsWith _, rfl⟩
    | some m =>
      have hm : m.knownUser request.user_id = false := by
        simpa [isKnownUser] using hku
      simp only [recommend, hm, Bool.false_eq_true, if_false]
      exact ⟨ruleBased_startsWith _, trivial⟩
  · rintro rfl
    exact ruleBased_startsWith _

/-- Witness for C1: a loaded model and its known user take the AI path
on a concrete request. -/
theorem C1_dispatch_witness :
    strStartsWith
        (recommend (some demoModel) demoAssets ⟨"u1", "Balanced", 2⟩).source ("AI Model") ∧
      (recommend (some demoModel) demoAssets ⟨"u1", "Balanced", 2⟩).recommendations =
        get_warm_start_recs demoModel demoAssets ("u1") 2 :=
  (C1_dispatch (some demoModel) demoAssets ⟨"u1", "Balanced", 2⟩).1 demoModel rfl (by decide)

/-- Claim C2 counterexample: "Not Conservative" is outside the enum, so
the claim requires the Balanced set {Stock, MultiTypeFund}; the code's
substring test `'Conservative' in risk_profile` fires and maps it to
{Bond}, returning the Bond-category assets instead. -/
theorem C2_counterexample :
    target_cats ("Not Conservative") = [("Bond")] ∧
    get_cold_start_recs demoAssets ("Not Conservative") 5 = [("A1"), ("A3")] ∧
    get_cold_start_recs demoAssets ("Balanced") 5 = [("A2"), ("A4")] ∧
    (demoAssets.filter (fun a => a.ISIN == "A1")).map Asset.assetCategory = [("Bond")] := by
  decide

/-- Claim C2 (amended): the risk-profile mapping is by substring
containment — a profile containing "Conservative" maps to {Bond}, else
one containing "Aggressive" maps to {Stock}, else (Balanced, the
default, and unrecognized values containing neither substring) to
{Stock, MTF}; on the three enum values this is exactly the claimed
table. The ranker filters the catalog to eligible categories preserving
order and, for `top_k ≥ 0`, truncates to the first `top_k` matches; with
fewer than `top_k` eligible assets all of them are returned. -/
theorem C2_cold_start (df_assets : List Asset) (risk_profile : String)
    (top_k : Int) (hk : 0 ≤ top_k) :
    target_cats ("Conservative") = [("Bond")] ∧
    target_cats ("Aggressive") = [("Stock")] ∧
    target_cats ("Balanced") = [("Stock"), ("MTF")] ∧
    get_cold_start_recs df_assets risk_profile top_k =
      ((df_assets.filter
        (fun a => (target_cats risk_profile).contains a.assetCategory)).map
          Asset.ISIN).take top_k.toNat ∧
    ((df_assets.filter
        (fun a => (target_cats risk_profile).contains a.assetCategory)).length ≤
          top_k.toNat →
      get_cold_start_recs df_assets risk_profile top_k =
        (df_assets.filter
          (fun a => (target_cats risk_profile).contains a.assetCategory)).map
            Asset.ISIN) := by
  refine ⟨by decide, by decide, by decide, ?_, ?_⟩
  · simp only [get_cold_start_recs]
    rw [pyTake_of_nonneg hk, List.map_take]
  · intro hlen
    simp only [get_cold_start_recs]
    rw [pyTake_of_nonneg hk, List.take_of_length_le hlen]

/-- Witness for C2 (amended) at a concrete Conservative request. -/
theorem C2_cold_start_witness :
    get_cold_start_recs demoAssets ("Conservative") 1 =
      ((demoAssets.filter
        (fun a => (target_cats ("Conservative")).contains a.assetCategory)).map
          Asset.ISIN).take ((1 : Int)).toNat :=
  (C2_cold_start demoAssets ("Conservative") 1 (by decide)).2.2.2.1

/-- Claim C4 counterexample: `top_k = 0` and `top_k = 51` lie outside
1..50, yet both requests pass validation and a full response is
assembled (with an empty recommendation list for 0), instead of the
claimed ValidationError with no response body. -/
theorem C4_counterexample :
    handleRequest none demoAssets ⟨some ("u9"), none, some 0⟩ =
      Except.ok ⟨"u9", "Rule-Based (Balanced)", []⟩ ∧
    handleRequest none demoAssets ⟨some ("u9"), none, some 51⟩ =
      Except.ok ⟨"u9", "Rule-Based (Balanced)", [("A2"), ("A4")]⟩ :=
  ⟨rfl, rfl⟩

/-- Claim C4 (amended): the request contract places no range constraint
on `top_k` — every integer value is accepted and handled normally;
`top_k = 0` produces an accepted response whose recommendation list is
empty, rather than a rejection. -/
theorem C4_no_topk_validation (model : Option SVDModel) (df_assets : List Asset)
    (u : String) (rp : Option String) (k : Int) :
    handleRequest model df_assets ⟨some u, rp, some k⟩ =
      Except.ok (recommend model df_assets ⟨u, rp.getD ("Balanced"), k⟩) ∧
    (recommend model df_assets ⟨u, rp.getD ("Balanced"), 0⟩).recommendations = [] :=
  ⟨rfl, recommendations_at_zero model df_assets u (rp.getD ("Balanced"))⟩

/-- Claim C5 counterexample: an empty `user_id` is accepted, the cold
ranker runs and recommendations are returned — the request is not
rejected and processing does occur. -/
theorem C5_counterexample :
    handleRequest none demoAssets ⟨some (""), none, none⟩ =
      Except.ok ⟨"", "Rule-Based (Balanced)", [("A2"), ("A4")]⟩ :=
  rfl

/-- Claim C5 (amended): a missing `user_id` field is rejected by
validation with a descriptive message and nothing is processed; an empty
`user_id` string, however, satisfies the `str` schema and is processed
like any other request. -/
theorem C5_user_id_validation (model : Option SVDModel) (df_assets : List Asset)
    (rp : Option String) (k : Option Int) :
    handleRequest model df_assets ⟨none, rp, k⟩ =
      Except.error ("field required: user_id") ∧
    handleRequest model df_assets ⟨some (""), rp, k⟩ =
      Except.ok (recommend model df_assets ⟨"", rp.getD ("Balanced"), k.getD 5⟩) :=
  ⟨rfl, rfl⟩

/-- Claim C6 counterexample: "Ultra Aggressive" is outside the enum but
does not behave like "Balanced": the substring test maps it to {Stock},
dropping the MTF asset that the Balanced mapping returns. -/
theorem C6_counterexample :
    ¬ (("Ultra Aggressive" : String) ∈
        [("Conservative"), ("Balanced"), ("Aggressive")]) ∧
    get_cold_start_recs demoAssets ("Ultra Aggressive") 5 = [("A2")] ∧
    get_cold_start_recs demoAssets ("Balanced") 5 = [("A2"), ("A4")] := by
  decide

/-- Claim C6 (amended): an omitted `risk_profile` defaults to
"Balanced"; an unrecognized value behaves identically to "Balanced"
exactly when it contains neither "Conservative" nor "Aggressive" as a
substring (e.g. "Moderate"); values containing one of those substrings
follow that substring's mapping instead. -/
theorem C6_default_mapping (df_assets : List Asset) (rp u : String) (k : Int)
    (ko : Option Int)
    (h1 : pyIn ("Conservative") rp = false) (h2 : pyIn ("Aggressive") rp = false) :
    get_cold_start_recs df_assets rp k = get_cold_start_recs df_assets ("Balanced") k ∧
    parseRequest ⟨some u, none, ko⟩ = Except.ok ⟨u, "Balanced", ko.getD 5⟩ := by
  constructor
  · have ht : target_cats rp = target_cats ("Balanced") := by
      simp only [target_cats, h1, h2]
      decide
    simp only [get_cold_start_recs]
    rw [ht]
  · rfl

/-- Witness for C6 (amended): "Moderate" contains neither substring and
matches the Balanced output on the demo catalog. -/
theorem C6_default_mapping_witness :
    pyIn ("Conservative") ("Moderate") = false ∧
    pyIn ("Aggressive") ("Moderate") = false ∧
    get_cold_start_recs demoAssets ("Moderate") 2 =
      get_cold_start_recs demoAssets ("Balanced") 2 :=
  ⟨by decide, by decide,
    (C6_default_mapping demoAssets ("Moderate") ("u") 2 none (by decide) (by decide)).1⟩

/-- Claim C7 counterexample: a negative `top_k` is accepted (the field
is unvalidated) and `head(-1)` keeps all but the last match, so the
response holds 1 recommendation while the claimed invariant
`len ≤ top_k` demands at most -1. -/
theorem C7_counterexample :
    (recommend none demoAssets ⟨"u7", "Balanced", -1⟩).recommendations.length = 1 ∧
    ¬ (((recommend none demoAssets
        ⟨"u7", "Balanced", -1⟩).recommendations.length : Int) ≤ -1) := by
  decide

/-- Claim C7 (amended): for every handled request with `top_k ≥ 0` (all
in-range requests included), the recommendation list length lies between
0 and `top_k` on both the cold and the warm path; only the unvalidated
negative `top_k` values escape the invariant. -/
theorem C7_length_invariant (model : Option SVDModel) (df_assets : List Asset)
    (request : RecommendationRequest) (hk : 0 ≤ request.top_k) :
    0 ≤ ((recommend model df_assets request).recommendations.length : Int) ∧
    ((recommend model df_assets request).recommendations.length : Int) ≤
      request.top_k := by
  refine ⟨Int.natCast_nonneg _, ?_⟩
  cases model with
  | none => exact length_cold_le hk
  | some m =>
    by_cases h : m.knownUser request.user_id
    · simp only [recommend, h, if_true]
      exact length_warm_le hk
    · simp only [recommend, h, Bool.false_eq_true, if_false]
      exact length_cold_le hk

/-- Witness for C7 (amended) at a concrete in-range request. -/
theorem C7_length_invariant_witness :
    0 ≤ ((recommend none demoAssets
        ⟨"u7", "Balanced", 1⟩).recommendations.length : Int) ∧
    ((recommend none demoAssets
        ⟨"u7", "Balanced", 1⟩).recommendations.length : Int) ≤
      (⟨"u7", "Balanced", 1⟩ : RecommendationRequest).top_k :=
  C7_length_invariant none demoAssets ⟨"u7", "Balanced", 1⟩ (by decide)

/-- Claim C3 (confirmed): the warm-start ranker scores every catalog
asset and sorts descending by affinity, so for returned assets at
positions i < j the affinity of the earlier one is at least that of the
later one. -/
theorem C3_warm_ranking_order (m : SVDModel) (df_assets : List Asset)
    (user_id : String) (top_k : Int) (i j : Nat) (hij : i < j)
    (hj : j < (get_warm_start_recs m df_assets user_id top_k).length) :
    m.predict user_id
        ((get_warm_start_recs m df_assets user_id top_k).get ⟨j, hj⟩) ≤
      m.predict user_id
        ((get_warm_start_recs m df_assets user_id top_k).get
          ⟨i, lt_trans hij hj⟩) := by
  set preds := (ALL_ASSET_IDS df_assets).map
    (fun asset_id => (asset_id, m.predict user_id asset_id)) with hpreds
  set T := pyTake top_k (preds.insertionSort descBy) with hT
  have hsorted : T.Pairwise descBy :=
    List.Pairwise.sublist (pyTake_sublist _ _) (List.sorted_insertionSort descBy preds)
  have hlen : (get_warm_start_recs m df_assets user_id top_k).length = T.length := by
    show (T.map Prod.fst).length = T.length
    exact List.length_map _ _
  have hj' : j < T.length := by rw [← hlen]; exact hj
  have hi' : i < T.length := lt_trans hij hj'
  have hrel : descBy (T.get ⟨i, hi'⟩) (T.get ⟨j, hj'⟩) :=
    List.Sorted.rel_get_of_lt (a := ⟨i, hi'⟩) (b := ⟨j, hj'⟩) hsorted hij
  have hgetj : (get_warm_start_recs m df_assets user_id top_k).get ⟨j, hj⟩ =
      (T.get ⟨j, hj'⟩).1 := by
    show (T.map Prod.fst).get ⟨j, hj⟩ = (T.get ⟨j, hj'⟩).1
    simp [List.get_eq_getElem, List.getElem_map]
  have hgeti : (get_warm_start_recs m df_assets user_id top_k).get
      ⟨i, lt_trans hij hj⟩ = (T.get ⟨i, hi'⟩).1 := by
    show (T.map Prod.fst).get ⟨i, lt_trans hij hj⟩ = (T.get ⟨i, hi'⟩).1
    simp [List.get_eq_getElem, List.getElem_map]
  have hmemj : T.get ⟨j, hj'⟩ ∈ preds.insertionSort descBy :=
    (pyTake_sublist _ _).subset (T.get_mem j hj')
  have hmemi : T.get ⟨i, hi'⟩ ∈ preds.insertionSort descBy :=
    (pyTake_sublist _ _).subset (T.get_mem i hi')
  have hsndj : (T.get ⟨j, hj'⟩).2 = m.predict user_id (T.get ⟨j, hj'⟩).1 :=
    snd_eq_predict_of_mem_sorted hmemj
  have hsndi : (T.get ⟨i, hi'⟩).2 = m.predict user_id (T.get ⟨i, hi'⟩).1 :=
    snd_eq_predict_of_mem_sorted hmemi
  rw [hgetj, hgeti, ← hsndj, ← hsndi]
  exact hrel

/-- Witness for C3 on the demo model: position 0 outranks position 1. -/
theorem C3_warm_ranking_order_witness :
    demoModel.predict ("u1")
        ((get_warm_start_recs demoModel demoAssets ("u1") 4).get ⟨1, by decide⟩) ≤
      demoModel.predict ("u1")
        ((get_warm_start_recs demoModel demoAssets ("u1") 4).get ⟨0, by decide⟩) :=
  C3_warm_ranking_order demoModel demoAssets ("u1") 4 0 1 (by decide) (by decide)

/-- Claim C8 (confirmed): with unique catalog identifiers, neither path
ever returns a repeated identifier — the cold output is a sublist of the
catalog's identifier column, and the warm output of the deduplicated
`ALL_ASSET_IDS`. -/
theorem C8_no_duplicates (model : Option SVDModel) (df_assets : List Asset)
    (request : RecommendationRequest)
    (hdf : (df_assets.map Asset.ISIN).Nodup) :
    (recommend model df_assets request).recommendations.Nodup := by
  cases model with
  | none => exact cold_nodup hdf _ _
  | some m =>
    by_cases h : m.knownUser request.user_id
    · simp only [recommend, h, if_true]
      exact warm_nodup m df_assets _ _
    · simp only [recommend, h, Bool.false_eq_true, if_false]
      exact cold_nodup hdf _ _

/-- Witness for C8 on the demo catalog, warm path. -/
theorem C8_no_duplicates_witness :
    (demoAssets.map Asset.ISIN).Nodup ∧
    (recommend (some demoModel) demoAssets
      ⟨"u1", "Balanced", 3⟩).recommendations.Nodup :=
  ⟨by decide,
    C8_no_duplicates (some demoModel) demoAssets ⟨"u1", "Balanced", 3⟩ (by decide)⟩

/-- Claim C9 (confirmed): the rankers and the endpoint are pure
functions of their inputs — repeated calls agree definitionally — and
the cold path never reads the user identity: two cold-classified users
with the same risk profile and count receive identical
recommendations. -/
theorem C9_determinism (model : Option SVDModel) (df_assets : List Asset)
    (request : RecommendationRequest) (m : SVDModel) (u1 u2 rp : String) (k : Int)
    (h1 : isKnownUser model u1 = false) (h2 : isKnownUser model u2 = false) :
    recommend model df_assets request = recommend model df_assets request ∧
    get_cold_start_recs df_assets rp k = get_cold_start_recs df_assets rp k ∧
    get_warm_start_recs m df_assets u1 k = get_warm_start_recs m df_assets u1 k ∧
    (recommend model df_assets ⟨u1, rp, k⟩).recommendations =
      (recommend model df_assets ⟨u2, rp, k⟩).recommendations := by
  refine ⟨rfl, rfl, rfl, ?_⟩
  cases model with
  | none => rfl
  | some m2 =>
    have h1a : m2.knownUser u1 = false := by simpa [isKnownUser] using h1
    have h2a : m2.knownUser u2 = false := by simpa [isKnownUser] using h2
    simp [recommend, h1a, h2a]

/-- Witness for C9: two distinct unknown users get the same cold
recommendations from a loaded model. -/
theorem C9_determinism_witness :
    (recommend (some demoModel) demoAssets ⟨"x1", "Balanced", 2⟩).recommendations =
      (recommend (some demoModel) demoAssets ⟨"x2", "Balanced", 2⟩).recommendations :=
  (C9_determinism (some demoModel) demoAssets ⟨"x1", "Balanced", 2⟩ demoModel
    ("x1") ("x2") ("Balanced") 2 (by decide) (by decide)).2.2.2

/-- Claim C10 (confirmed): the warm-start tie-break is the catalog load
order — when a precedes b in the deduplicated catalog identifier
sequence, their affinities are equal and b is returned, then a is
returned as well and precedes b (the sort is stable on the scoring
iteration order). -/
theorem C10_warm_tie_break (m : SVDModel) (df_assets : List Asset)
    (user_id : String) (top_k : Int) (a b : String)
    (hab : [a, b].Sublist (ALL_ASSET_IDS df_assets))
    (heq : m.predict user_id a = m.predict user_id b)
    (hb : b ∈ get_warm_start_recs m df_assets user_id top_k) :
    [a, b].Sublist (get_warm_start_recs m df_assets user_id top_k) := by
  set f : String → String × Rat := fun x => (x, m.predict user_id x) with hf
  set L := ((ALL_ASSET_IDS df_assets).map f).insertionSort descBy with hL
  have hpair : [f a, f b].Sublist ((ALL_ASSET_IDS df_assets).map f) := by
    have h := hab.map f
    simpa using h
  have hr : descBy (f a) (f b) := by
    show m.predict user_id b ≤ m.predict user_id a
    rw [heq]
  have hLpair : [f a, f b].Sublist L := List.pair_sublist_insertionSort hr hpair
  have hLnodup : L.Nodup := by
    refine (List.perm_insertionSort descBy _).nodup_iff.mpr ?_
    refine List.Nodup.map ?_ (ALL_ASSET_IDS_nodup df_assets)
    intro x y hxy
    exact congrArg Prod.fst hxy
  have hbmem : f b ∈ pyTake top_k L := by
    rcases List.mem_map.mp hb with ⟨q, hqmem, hq1⟩
    have hq2 : q.2 = m.predict user_id q.1 :=
      snd_eq_predict_of_mem_sorted ((pyTake_sublist _ _).subset hqmem)
    have hqfb : q = f b := by
      have hq2b : q.2 = m.predict user_id b := by rw [hq2, hq1]
      exact Prod.ext hq1 hq2b
    rw [← hqfb]
    exact hqmem
  have hTake : [f a, f b].Sublist (pyTake top_k L) :=
    pair_sublist_take hLpair hLnodup hbmem
  have hfinal : [a, b].Sublist ((pyTake top_k L).map Prod.fst) := by
    have h := hTake.map Prod.fst
    simpa using h
  exact hfinal

/-- Witness for C10: A1 and A3 tie on the demo model; A3 is returned at
`top_k = 2` and A1 keeps its catalog-order precedence. -/
theorem C10_warm_tie_break_witness :
    [("A1"), ("A3")].Sublist (ALL_ASSET_IDS demoAssets) ∧
    [("A1"), ("A3")].Sublist (get_warm_start_recs demoModel demoAssets ("u1") 2) :=
  ⟨by decide,
    C10_warm_tie_break demoModel demoAssets ("u1") 2 ("A1") ("A3")
      (by decide) (by decide) (by decide)⟩

end FinPro
